import Mathlib

/-!
Verification of the display-command tools of this repository
(`src/.wpsd-nextion-text.py` and `src/.wpsd-oled.text.py`).

The Python sources are shallowly embedded below:
* byte strings are `List Nat` (each element a byte value `< 256`);
* Python's `str.encode()` (UTF-8) is modelled with the standard library's
  `String.utf8EncodeChar`, the reference UTF-8 encoder;
* Python's floor division `//` on integers is `Int.fdiv`;
* fallible operations (a `bytearray` literal whose elements fall outside
  `range(0, 256)` raises `ValueError`) return `Option`;
* the ini configuration file is an explicit record of the looked-up keys
  (`None` = key or section absent), since `configparser` itself is an
  external collaborator.
-/

/-- UTF-8 bytes of a string, as natural numbers.  Embeds Python's
`str.encode()` (default UTF-8 codec) used by `MakeNextionCommand`. -/
def strBytes (s : String) : List Nat :=
  (s.data.flatMap String.utf8EncodeChar).map UInt8.toNat

/-- `MMDVM_SERIAL = 0x80` (`src/.wpsd-nextion-text.py` line 62). -/
def MMDVM_SERIAL : Nat := 0x80

/-- `NEXTION_FIELDS` (`src/.wpsd-nextion-text.py` line 64). -/
def NEXTION_FIELDS : List String := ["t0", "t1", "t2", "t5", "t20", "t30", "t31", "t32"]

/-- `MakeNextionCommand` (`src/.wpsd-nextion-text.py` lines 66-70):
UTF-8-encode the command string and append the `FF FF FF` terminator. -/
def MakeNextionCommand (commandString : String) : List Nat :=
  strBytes commandString ++ [0xff, 0xff, 0xff]

/-- `MakeSetTextCommandString` (`src/.wpsd-nextion-text.py` lines 72-73):
the f-string `f"{field}.txt=\x7bvalue\x7d"` with the value quoted verbatim. -/
def MakeSetTextCommandString (field value : String) : String :=
  field ++ ".txt=\"" ++ value ++ "\""

/-- `MakeModemCommand` (`src/.wpsd-nextion-text.py` lines 75-79):
prepend the `[0xE0, frameLength, MMDVM_SERIAL]` header, where
`frameLength = len(nextionCommand) + 3`.  The Python
`bytearray([0xe0, frameLength, MMDVM_SERIAL])` raises `ValueError` when
`frameLength` is not in `range(0, 256)`, so the embedding returns `none`
in that case. -/
def MakeModemCommand (nextionCommand : List Nat) : Option (List Nat) :=
  let frameLength := nextionCommand.length + 3
  if frameLength < 256 then
    some ([0xe0, frameLength, MMDVM_SERIAL] ++ nextionCommand)
  else
    none

/-- The frame written by `SetTextValue` (`src/.wpsd-nextion-text.py`
lines 84-86): the composition
`MakeModemCommand (MakeNextionCommand (MakeSetTextCommandString field value))`. -/
def SetTextValueFrame (field value : String) : Option (List Nat) :=
  MakeModemCommand (MakeNextionCommand (MakeSetTextCommandString field value))

/-- The sequence of writes issued by `ClearAllFields`
(`src/.wpsd-nextion-text.py` lines 88-91): one `SetTextValue` write with an
empty value per entry of `NEXTION_FIELDS`, then one write of the wrapped
`"ref 0"` command.  Each list element is one `serialInterface.write` call. -/
def ClearAllFieldsWrites : List (Option (List Nat)) :=
  NEXTION_FIELDS.map (fun f => SetTextValueFrame f "") ++
    [MakeModemCommand (MakeNextionCommand "ref 0")]

/-- Python's `str.strip()` (no argument): remove leading and trailing
whitespace.  Modelled for the ASCII whitespace characters, which is what
`str.strip()` removes on the values occurring here. -/
def isPySpace (c : Char) : Bool :=
  c = ' ' || c = '\t' || c = '\n' || c = '\x0d' || c = '\x0b' || c = '\x0c'

/-- `value.strip()` as applied to every configuration value looked up by
`get_display_port`. -/
def strip (s : String) : String :=
  String.mk (((s.data.dropWhile isPySpace).reverse.dropWhile isPySpace).reverse)

/-- The configuration keys read from `/etc/mmdvmhost` by
`get_display_port` (`src/.wpsd-nextion-text.py` lines 22-58).
`none` models an absent section or key (`NoSectionError`/`NoOptionError`). -/
structure MmdvmIni where
  generalDisplay : Option String
  nextionPort : Option String
  nextionDriverPort : Option String
  modemUartPort : Option String

/-- `get_display_port` (`src/.wpsd-nextion-text.py` lines 22-58), up to and
excluding the final `os.path.exists` check (a filesystem effect: when the
resolved path does not exist the tool exits 0; the resolution logic itself
is the value computed here).

Line map: `display` lookup (26-29), default `/dev/ttyAMA0` (32),
the `Nextion` branch with the `/dev/ttyNextionDriver` sentinel and the
`NextionDriver.Port` fallback (34-46) — `driver_port if driver_port else
nextion_port` makes an empty stripped driver port fall back to the
sentinel — and the `modem` override from `Modem.UARTPort` (48-53). -/
def get_display_port (ini : MmdvmIni) : String :=
  let display : Option String := ini.generalDisplay.map strip
  let displayPort := "/dev/ttyAMA0"
  let displayPort :=
    if display = some "Nextion" then
      match ini.nextionPort.map strip with
      | some nextion_port =>
        if nextion_port = "/dev/ttyNextionDriver" then
          match ini.nextionDriverPort.map strip with
          | some driver_port =>
            if driver_port ≠ "" then driver_port else nextion_port
          | none => nextion_port
        else nextion_port
      | none => displayPort
    else displayPort
  if displayPort = "modem" then
    match ini.modemUartPort.map strip with
    | some modem_port => if modem_port ≠ "" then modem_port else displayPort
    | none => displayPort
  else displayPort

/-- Exit status of Python's `sys.exit(arg)`: `sys.exit()` —
modelled as `none` — exits with status `0`; `sys.exit(n)` exits with `n`. -/
def sysExitCode : Option Nat → Nat
  | none => 0
  | some n => n

/-- The `__main__` block of `src/.wpsd-nextion-text.py` (lines 93-124),
restricted to runs where port resolution succeeded and the port path
exists (otherwise the script has already exited earlier).  Inputs: the
argument list after the program name, and whether opening/writing the
serial link raises `serial.SerialException`.  Output: the process exit
status, and whether the `"Serial port exception"` message was printed.

* fewer than 1 argument: usage message, bare `sys.exit()` (lines 104-106);
* a `SerialException` anywhere in the `try` block lands in the handler at
  lines 122-124: `print(f"Serial port exception: ...")` then a bare
  `sys.exit()`;
* otherwise the writes happen (or the invalid-argument branch exits via a
  bare `sys.exit()`) and the script terminates normally with status 0. -/
def nextionMain (args : List String) (serialRaises : Bool) : Nat × Bool :=
  if args.length < 1 then (sysExitCode none, false)
  else if serialRaises then (sysExitCode none, true)
  else (0, false)

/-- The two supported OLED screen types (`src/.wpsd-oled.text.py`
lines 70-71): `'type3'` (ssd1306) and `'type6'` (sh1106). -/
inductive ScreenType where
  | type3 : ScreenType
  | type6 : ScreenType
deriving DecidableEq, Repr

/-- The `[OLED]` section as seen by `get_config_settings`
(`src/.wpsd-oled.text.py` lines 53-102).  Key lookups and the Python
parsers (`configparser.getint`, `int(s, 16)`) are external collaborators,
so each key is modelled by its lookup-and-parse outcome:
`none` = key absent, `some none` = key present but the parse raised
`ValueError`, `some (some v)` = key present and parsed to `v`. -/
structure OledIni where
  hasOLEDSection : Bool
  typeKey : Option (Option Int)
  addressKey : Option (Option Nat)
  rotateKey : Option (Option Int)

/-- `get_config_settings` (`src/.wpsd-oled.text.py` lines 53-102), for runs
where the configuration file exists (a missing file is indistinguishable
from a missing `[OLED]` section for the callers modelled here).
Returns `(screen_type, address, rotate_config_value)`:

* missing `[OLED]` section: `(none, none, none)` (lines 63-65);
* missing `Type` key: `(none, none, none)` (lines 75-77);
* `Type` parses to 3 or 6: screen type and default address `0x3C`
  (lines 70-71); any other integer (line 72) or a `ValueError` (lines
  73-74) only warns, leaving `screen_type` and `address` as `None`;
* `Address` present and valid hex overrides the address (line 81); an
  invalid value only warns and keeps the previous address (lines 82-83);
* `Rotate` present and parsed to 0 or 1 is kept; any other integer, a
  `ValueError`, or an absent key yields 0 (lines 85-96). -/
def get_config_settings (ini : OledIni) :
    Option ScreenType × Option Nat × Option Int :=
  if !ini.hasOLEDSection then (none, none, none)
  else
    match ini.typeKey with
    | none => (none, none, none)
    | some t =>
      let st : Option ScreenType × Option Nat :=
        match t with
        | none => (none, none)
        | some type_int =>
          if type_int = 3 then (some .type3, some 0x3C)
          else if type_int = 6 then (some .type6, some 0x3C)
          else (none, none)
      let address : Option Nat :=
        match ini.addressKey with
        | some (some a) => some a
        | _ => st.2
      let rotate : Int :=
        match ini.rotateKey with
        | some (some r) => if r = 0 || r = 1 then r else 0
        | _ => 0
      (st.1, address, some rotate)

/-- The failure check applied by `main` to the result of
`get_config_settings` (`src/.wpsd-oled.text.py` lines 157-160): the run
exits 1 when any component of the returned triple is `None`. -/
def oledResolutionFails (ini : OledIni) : Bool :=
  let r := get_config_settings ini
  r.1.isNone || r.2.1.isNone || r.2.2.isNone

/-- Horizontal centering of one text line (`src/.wpsd-oled.text.py`
lines 118-119): `max(0, (width - text_width) // 2)`; Python `//` is floor
division, `Int.fdiv`. -/
def xCoord (width w : Int) : Int :=
  max 0 ((width - w).fdiv 2)

/-- Primary-tier spacing (`src/.wpsd-oled.text.py` line 121):
`max(1, (height - total_h) // 3)`. -/
def spacing1 (height total_h : Int) : Int :=
  max 1 ((height - total_h).fdiv 3)

/-- Second-tier spacing (`src/.wpsd-oled.text.py` line 124):
`max(0, (height - total_h) // 3)`. -/
def spacing2 (height total_h : Int) : Int :=
  max 0 ((height - total_h).fdiv 3)

/-- Primary vertical placement (`src/.wpsd-oled.text.py` lines 121-122):
`y1 = spacing; y2 = y1 + text_height_1 + spacing`. -/
def tier1 (height h1 h2 : Int) : Int × Int :=
  let s := spacing1 height (h1 + h2)
  (s, s + h1 + s)

/-- Second-tier vertical placement (`src/.wpsd-oled.text.py` line 124):
the tuple assignment `y1, y2 = spacing, y1 + text_height_1 + spacing`
evaluates its right-hand side before assigning, so the `y1` read there is
still the tier-1 `y1`. -/
def tier2 (height h1 h2 : Int) : Int × Int :=
  let s := spacing2 height (h1 + h2)
  (s, (tier1 height h1 h2).1 + h1 + s)

/-- Third-tier vertical placement (`src/.wpsd-oled.text.py` line 126):
`y1, y2 = 0, text_height_1 + 1`. -/
def tier3 (h1 : Int) : Int × Int :=
  (0, h1 + 1)

/-- Fourth-tier vertical placement (`src/.wpsd-oled.text.py` line 127):
`y2 = height - text_height_2; y1 = max(0, y2 - text_height_1 - 1)`. -/
def tier4 (height h1 h2 : Int) : Int × Int :=
  let y2 := height - h2
  (max 0 (y2 - h1 - 1), y2)

/-- The complete vertical-placement cascade of `draw_text`
(`src/.wpsd-oled.text.py` lines 121-127): each tier is kept unless its
`y2 + text_height_2 > height` overflow test fires, in which case the next
tier recomputes the pair. -/
def layoutY (height h1 h2 : Int) : Int × Int :=
  let p1 := tier1 height h1 h2
  if p1.2 + h2 > height then
    let p2 := tier2 height h1 h2
    if p2.2 + h2 > height then
      let p3 := tier3 h1
      if p3.2 + h2 > height then tier4 height h1 h2 else p3
    else p2
  else p1

/-- The full layout computed by `draw_text` (`src/.wpsd-oled.text.py`
lines 115-127) from the reported text dimensions: the `(x, y)` pair for
each of the two lines. -/
def draw_text_layout (width height w1 h1 w2 h2 : Int) :
    (Int × Int) × (Int × Int) :=
  let y := layoutY height h1 h2
  ((xCoord width w1, y.1), (xCoord width w2, y.2))

/-- C2 (counterexample): `encodeSetText("t0", "HELLO")` does not produce the
byte sequence `E0 0F 80 74 30 2E 74 78 74 3D 22 48 45 4C 4C 4F 22 FF FF FF`
claimed by the specification: the embedded length byte of the frame the
code builds is `0x14` (20), not `0x0F` (15). -/
theorem setText_t0_HELLO_ne_spec_bytes :
    SetTextValueFrame "t0" "HELLO" ≠
      some [0xe0, 0x0f, 0x80, 0x74, 0x30, 0x2e, 0x74, 0x78, 0x74, 0x3d, 0x22,
        0x48, 0x45, 0x4c, 0x4c, 0x4f, 0x22, 0xff, 0xff, 0xff] := by decide

/-- C2 (amended): `encodeSetText("t0", "HELLO")` produces exactly the bytes
`E0 14 80 74 30 2E 74 78 74 3D 22 48 45 4C 4C 4F 22 FF FF FF`; the embedded
length byte equals 20 = length of the terminated command (17) + 3,
covering the 3-byte transport header itself. -/
theorem setText_t0_HELLO_bytes :
    SetTextValueFrame "t0" "HELLO" =
      some [0xe0, 0x14, 0x80, 0x74, 0x30, 0x2e, 0x74, 0x78, 0x74, 0x3d, 0x22,
        0x48, 0x45, 0x4c, 0x4c, 0x4f, 0x22, 0xff, 0xff, 0xff] ∧
    (MakeNextionCommand (MakeSetTextCommandString "t0" "HELLO")).length + 3 = 20 := by
  decide

/-- C9: `ClearAllFields` issues exactly 9 writes, in order: one
empty-value set-text frame for each field of
`[t0, t1, t2, t5, t20, t30, t31, t32]`, then, as the 9th and final write,
the wrapped raw `"ref 0"` command frame. -/
theorem ClearAllFieldsWrites_spec :
    ClearAllFieldsWrites = [
      some [0xe0, 0x0f, 0x80, 0x74, 0x30, 0x2e, 0x74, 0x78, 0x74, 0x3d, 0x22, 0x22, 0xff, 0xff, 0xff],
      some [0xe0, 0x0f, 0x80, 0x74, 0x31, 0x2e, 0x74, 0x78, 0x74, 0x3d, 0x22, 0x22, 0xff, 0xff, 0xff],
      some [0xe0, 0x0f, 0x80, 0x74, 0x32, 0x2e, 0x74, 0x78, 0x74, 0x3d, 0x22, 0x22, 0xff, 0xff, 0xff],
      some [0xe0, 0x0f, 0x80, 0x74, 0x35, 0x2e, 0x74, 0x78, 0x74, 0x3d, 0x22, 0x22, 0xff, 0xff, 0xff],
      some [0xe0, 0x10, 0x80, 0x74, 0x32, 0x30, 0x2e, 0x74, 0x78, 0x74, 0x3d, 0x22, 0x22, 0xff, 0xff, 0xff],
      some [0xe0, 0x10, 0x80, 0x74, 0x33, 0x30, 0x2e, 0x74, 0x78, 0x74, 0x3d, 0x22, 0x22, 0xff, 0xff, 0xff],
      some [0xe0, 0x10, 0x80, 0x74, 0x33, 0x31, 0x2e, 0x74, 0x78, 0x74, 0x3d, 0x22, 0x22, 0xff, 0xff, 0xff],
      some [0xe0, 0x10, 0x80, 0x74, 0x33, 0x32, 0x2e, 0x74, 0x78, 0x74, 0x3d, 0x22, 0x22, 0xff, 0xff, 0xff],
      some [0xe0, 0x0b, 0x80, 0x72, 0x65, 0x66, 0x20, 0x30, 0xff, 0xff, 0xff]] ∧
    ClearAllFieldsWrites.length = 9 := by decide

/-- C1: on a `serial.SerialException` during open/write (here: a `-c` run
whose serial open raises), the panel tool prints the
`"Serial port exception"` message but then exits via a bare `sys.exit()`,
i.e. with status 0 — not with the non-zero status (1) the specification's
exit-code table requires for a transport failure. -/
theorem nextionMain_serialException_exits_zero :
    nextionMain ["-c"] true = (0, true) ∧ (nextionMain ["-c"] true).1 ≠ 1 := by decide

set_option maxRecDepth 40000 in
/-- C4 (counterexample): frame encoding is not total.  For the field
`"t0"` and a 241-character value, `frameLength = 256` and the Python
`bytearray([0xe0, frameLength, MMDVM_SERIAL])` raises
`ValueError: byte must be in range(0, 256)`; one character fewer still
succeeds. -/
theorem setText_overlong_value_fails :
    SetTextValueFrame "t0" (String.mk (List.replicate 241 'A')) = none ∧
    (SetTextValueFrame "t0" (String.mk (List.replicate 240 'A'))).isSome = true := by
  decide

/-- Shared helper: UTF-8 encoding distributes over string concatenation. -/
theorem strBytes_append (a b : String) :
    strBytes (a ++ b) = strBytes a ++ strBytes b := by
  simp [strBytes]

/-- C4 (amended): encoding is total and faithful exactly while the length
byte fits in a byte: for every field and value whose UTF-8 encodings
total at most 242 bytes, the three encoding stages succeed and produce
the frame `E0 <len> 80 <field bytes> .txt=" <value bytes> " FF FF FF`
with `<len>` = field bytes + value bytes + 13, the value embedded
verbatim — no validation and no escaping.  (Beyond 242 bytes the header
construction fails; see the counterexample.) -/
theorem setText_total_below_bound (field value : String)
    (h : (strBytes field).length + (strBytes value).length ≤ 242) :
    SetTextValueFrame field value =
      some ([0xe0, (strBytes field).length + (strBytes value).length + 13, 0x80]
        ++ strBytes field ++ [0x2e, 0x74, 0x78, 0x74, 0x3d, 0x22]
        ++ strBytes value ++ [0x22, 0xff, 0xff, 0xff]) := by
  have hmid : strBytes ".txt=\"" = [0x2e, 0x74, 0x78, 0x74, 0x3d, 0x22] := by decide
  have hq : strBytes "\"" = [0x22] := by decide
  have hcmd : strBytes (MakeSetTextCommandString field value)
      = strBytes field ++ [0x2e, 0x74, 0x78, 0x74, 0x3d, 0x22] ++ strBytes value ++ [0x22] := by
    simp [MakeSetTextCommandString, strBytes_append, hmid, hq]
  have hlen : (MakeNextionCommand (MakeSetTextCommandString field value)).length
      = (strBytes field).length + (strBytes value).length + 10 := by
    simp [MakeNextionCommand, hcmd]
    omega
  rw [SetTextValueFrame, MakeModemCommand]
  simp only [hlen]
  rw [if_pos (by omega)]
  simp [MakeNextionCommand, hcmd, MMDVM_SERIAL]

/-- Witness for `setText_total_below_bound` at field `"t5"`, value `"OK"`. -/
theorem setText_total_below_bound_witness :
    (strBytes "t5").length + (strBytes "OK").length ≤ 242 ∧
    SetTextValueFrame "t5" "OK" =
      some ([0xe0, (strBytes "t5").length + (strBytes "OK").length + 13, 0x80]
        ++ strBytes "t5" ++ [0x2e, 0x74, 0x78, 0x74, 0x3d, 0x22]
        ++ strBytes "OK" ++ [0x22, 0xff, 0xff, 0xff]) :=
  ⟨by decide, setText_total_below_bound "t5" "OK" (by decide)⟩

/-- Shared helper: characterization of when the OLED configuration
resolution fails (some component of the triple is `None`). -/
theorem oledFails_characterization (ini : OledIni) :
    oledResolutionFails ini = true ↔
      (ini.hasOLEDSection = false ∨ ini.typeKey = none ∨
        ∃ t, ini.typeKey = some t ∧ t ≠ some 3 ∧ t ≠ some 6) := by
  obtain ⟨sec, tk, ak, rk⟩ := ini
  cases sec with
  | false => simp [oledResolutionFails, get_config_settings]
  | true =>
    cases tk with
    | none => simp [oledResolutionFails, get_config_settings]
    | some t =>
      cases t with
      | none =>
        simp only [oledResolutionFails, get_config_settings]
        rcases ak with _ | ⟨_ | a⟩ <;> simp
      | some n =>
        by_cases h3 : n = 3
        · subst h3
          simp only [oledResolutionFails, get_config_settings]
          rcases ak with _ | ⟨_ | a⟩ <;> simp
        · by_cases h6 : n = 6
          · subst h6
            simp only [oledResolutionFails, get_config_settings]
            rcases ak with _ | ⟨_ | a⟩ <;> simp
          · simp only [oledResolutionFails, get_config_settings]
            rcases ak with _ | ⟨_ | a⟩ <;> simp [h3, h6]

/-- C6: OLED configuration resolution fails if and only if the `[OLED]`
section is missing, the `Type` key is missing, or `Type` is present but
unparsable or parses to an unsupported integer; in particular an invalid
`Address` hex string or an invalid `Rotate` value (any `addressKey` /
`rotateKey` outcome) never makes resolution fail. -/
theorem oledResolutionFails_iff (ini : OledIni) :
    oledResolutionFails ini = true ↔
      (ini.hasOLEDSection = false ∨ ini.typeKey = none ∨
        ∃ t, ini.typeKey = some t ∧ t ≠ some 3 ∧ t ≠ some 6) :=
  oledFails_characterization ini

/-- Witness for `oledResolutionFails_iff`: a present-but-unparsable
`Type` key makes resolution fail. -/
theorem oledResolutionFails_iff_witness :
    oledResolutionFails ⟨true, some none, none, none⟩ = true :=
  (oledResolutionFails_iff ⟨true, some none, none, none⟩).mpr
    (Or.inr (Or.inr ⟨none, rfl, by decide, by decide⟩))

/-- C7: `Type=3` maps to `type3` and `Type=6` to `type6`, both with
default I2C address `0x3C` when `Address` is absent and with the default
retained when `Address` is present but not valid hex; `Type=7` — or any
other unsupported integer — makes resolution fail. -/
theorem type3_type6_mapping (rk : Option (Option Int)) :
    (get_config_settings ⟨true, some (some 3), none, rk⟩).1 = some ScreenType.type3 ∧
    (get_config_settings ⟨true, some (some 3), none, rk⟩).2.1 = some 0x3C ∧
    (get_config_settings ⟨true, some (some 6), none, rk⟩).1 = some ScreenType.type6 ∧
    (get_config_settings ⟨true, some (some 6), none, rk⟩).2.1 = some 0x3C ∧
    (get_config_settings ⟨true, some (some 3), some none, rk⟩).2.1 = some 0x3C ∧
    (get_config_settings ⟨true, some (some 6), some none, rk⟩).2.1 = some 0x3C ∧
    (∀ ak, oledResolutionFails ⟨true, some (some 7), ak, rk⟩ = true) ∧
    (∀ n : Int, n ≠ 3 → n ≠ 6 →
      ∀ ak, oledResolutionFails ⟨true, some (some n), ak, rk⟩ = true) := by
  refine ⟨by simp [get_config_settings], by simp [get_config_settings],
    by simp [get_config_settings], by simp [get_config_settings],
    by simp [get_config_settings], by simp [get_config_settings], ?_, ?_⟩
  · intro ak
    rw [oledFails_characterization]
    right; right
    exact ⟨some 7, rfl, by decide, by decide⟩
  · intro n h3 h6 ak
    rw [oledFails_characterization]
    right; right
    exact ⟨some n, rfl, by simp [h3], by simp [h6]⟩

/-- Witness for `type3_type6_mapping`: `Type=3` resolves, `Type=7` and
`Type=5` fail. -/
theorem type3_type6_mapping_witness :
    (get_config_settings ⟨true, some (some 3), none, none⟩).1 = some ScreenType.type3 ∧
    oledResolutionFails ⟨true, some (some 7), none, none⟩ = true ∧
    oledResolutionFails ⟨true, some (some 5), none, none⟩ = true :=
  ⟨(type3_type6_mapping none).1,
   (type3_type6_mapping none).2.2.2.2.2.2.1 none,
   (type3_type6_mapping none).2.2.2.2.2.2.2 5 (by decide) (by decide) none⟩

/-- C8 (counterexample): with `General.Display = "Nextion"`,
`Nextion.Port = "/dev/ttyNextionDriver"` (the sentinel) and
`NextionDriver.Port = "modem"` present and non-empty, the resolved port
is not that value: the subsequent `Modem.UARTPort` override rewrites it
to `/dev/ttyACM0`. -/
theorem driver_port_modem_cex :
    get_display_port ⟨some "Nextion", some "/dev/ttyNextionDriver",
        some "modem", some "/dev/ttyACM0"⟩ = "/dev/ttyACM0" ∧
    get_display_port ⟨some "Nextion", some "/dev/ttyNextionDriver",
        some "modem", some "/dev/ttyACM0"⟩ ≠ "modem" := by decide

/-- C8 (amended): when `General.Display` (stripped) is `"Nextion"`: with
`Nextion.Port` stripping to the sentinel `/dev/ttyNextionDriver`,
a present, non-empty `NextionDriver.Port` is the resolved port — provided
its stripped value is not the literal `"modem"`, which the later
`Modem.UARTPort` step would override — while an absent or
empty-after-strip `NextionDriver.Port` resolves to the sentinel itself; a
non-sentinel, non-`"modem"` `Nextion.Port` is used directly; an absent
`Nextion.Port` leaves the built-in default `/dev/ttyAMA0`. -/
theorem port_resolution_cases (ini : MmdvmIni) (ds : String)
    (hd : ini.generalDisplay = some ds) (hds : strip ds = "Nextion") :
    (∀ np dp, ini.nextionPort = some np → strip np = "/dev/ttyNextionDriver" →
      ini.nextionDriverPort = some dp → strip dp ≠ "" → strip dp ≠ "modem" →
      get_display_port ini = strip dp) ∧
    (∀ np, ini.nextionPort = some np → strip np = "/dev/ttyNextionDriver" →
      ini.nextionDriverPort = none → get_display_port ini = "/dev/ttyNextionDriver") ∧
    (∀ np dp, ini.nextionPort = some np → strip np = "/dev/ttyNextionDriver" →
      ini.nextionDriverPort = some dp → strip dp = "" →
      get_display_port ini = "/dev/ttyNextionDriver") ∧
    (∀ np, ini.nextionPort = some np → strip np ≠ "/dev/ttyNextionDriver" →
      strip np ≠ "modem" → get_display_port ini = strip np) ∧
    (ini.nextionPort = none → get_display_port ini = "/dev/ttyAMA0") := by
  refine ⟨?_, ?_, ?_, ?_, ?_⟩
  · intro np dp hnp hnps hdp hdps hdpm
    simp [get_display_port, hd, hds, hnp, hnps, hdp, hdps, hdpm]
  · intro np hnp hnps hdp
    simp [get_display_port, hd, hds, hnp, hnps, hdp]
    exact fun h => absurd h (by decide)
  · intro np dp hnp hnps hdp hdps
    simp [get_display_port, hd, hds, hnp, hnps, hdp, hdps]
    exact fun h => absurd h (by decide)
  · intro np hnp hnps hnpm
    simp [get_display_port, hd, hds, hnp, hnps, hnpm]
  · intro hnp
    simp [get_display_port, hd, hds, hnp]
    exact fun h => absurd h (by decide)

/-- Witness for `port_resolution_cases`: the sentinel delegates to
`NextionDriver.Port = "/dev/ttyUSB3"`. -/
theorem port_resolution_cases_witness :
    get_display_port ⟨some "Nextion", some "/dev/ttyNextionDriver",
        some "/dev/ttyUSB3", none⟩ = strip "/dev/ttyUSB3" :=
  (port_resolution_cases
      ⟨some "Nextion", some "/dev/ttyNextionDriver", some "/dev/ttyUSB3", none⟩
      "Nextion" rfl (by decide)).1
    "/dev/ttyNextionDriver" "/dev/ttyUSB3" rfl (by decide) rfl (by decide) (by decide)

/-- Shared helper: floor-division decomposition for divisor 3,
`d = 3 * (d // 3) + (d mod 3)` with `0 ≤ d mod 3 < 3`. -/
theorem fdiv3_decomp (d : Int) :
    3 * d.fdiv 3 + d.fmod 3 = d ∧ 0 ≤ d.fmod 3 ∧ d.fmod 3 < 3 :=
  ⟨Int.fdiv_add_fmod d 3, Int.fmod_nonneg' d (by norm_num),
   Int.fmod_lt_of_pos d (by norm_num)⟩

/-- Shared helper: floor-division decomposition for divisor 2. -/
theorem fdiv2_decomp (d : Int) :
    2 * d.fdiv 2 + d.fmod 2 = d ∧ 0 ≤ d.fmod 2 ∧ d.fmod 2 < 2 :=
  ⟨Int.fdiv_add_fmod d 2, Int.fmod_nonneg' d (by norm_num),
   Int.fmod_lt_of_pos d (by norm_num)⟩

/-- C3 (counterexample): at `rasterHeight = 64`, `height1 = height2 = 32`
the primary tier overflows, yet the second tier does not yield
`y2 = spacing' + height1 + spacing'` (which would be 32): the tuple
assignment reuses the tier-1 `y1`, giving `y2 = 33`. -/
theorem tier2_reuses_old_y1_cex :
    (tier1 64 32 32).2 + 32 > 64 ∧
    (tier2 64 32 32).2 ≠ spacing2 64 (32 + 32) + 32 + spacing2 64 (32 + 32) ∧
    tier2 64 32 32 = (0, 33) := by decide

/-- C3 (amended): whenever the primary tier overflows, the second tier
recomputes `spacing' = max(0, (rasterHeight - (height1 + height2)) / 3)`
— which is then necessarily 0 — and yields `y1 = spacing' = 0` but
`y2 = y1_primary + height1 + spacing' = 1 + height1`, reusing the primary
tier's `y1` (necessarily 1) rather than the new one. -/
theorem tier2_of_overflow (height h1 h2 : Int)
    (hov : (tier1 height h1 h2).2 + h2 > height) :
    tier2 height h1 h2 = (0, 1 + h1) := by
  obtain ⟨hq, hr0, hr3⟩ := fdiv3_decomp (height - (h1 + h2))
  simp only [tier1, tier2, spacing1, spacing2] at hov ⊢
  rw [Prod.mk.injEq]
  exact ⟨by omega, by omega⟩

/-- Witness for `tier2_of_overflow` at `(64, 32, 32)`. -/
theorem tier2_of_overflow_witness :
    (tier1 64 32 32).2 + 32 > 64 ∧ tier2 64 32 32 = (0, 1 + 32) :=
  ⟨by decide, tier2_of_overflow 64 32 32 (by decide)⟩

/-- C5: whenever the two reported glyph heights are non-negative and fit
the raster (`height1 + height2 ≤ rasterHeight`), the final vertical
placement satisfies `0 ≤ y2` and `y2 + height2 ≤ rasterHeight`, and the
first line also lies within bounds above the second
(`0 ≤ y1` and `y1 + height1 ≤ y2`). -/
theorem layoutY_in_bounds (height h1 h2 : Int)
    (hh1 : 0 ≤ h1) (hh2 : 0 ≤ h2) (hfit : h1 + h2 ≤ height) :
    0 ≤ (layoutY height h1 h2).2 ∧ (layoutY height h1 h2).2 + h2 ≤ height ∧
    0 ≤ (layoutY height h1 h2).1 ∧
    (layoutY height h1 h2).1 + h1 ≤ (layoutY height h1 h2).2 := by
  obtain ⟨hq, hr0, hr3⟩ := fdiv3_decomp (height - (h1 + h2))
  simp only [layoutY, tier1, tier2, tier3, tier4, spacing1, spacing2]
  split_ifs <;> simp <;> omega

/-- Witness for `layoutY_in_bounds` at `rasterHeight = 64`,
`height1 = height2 = 20`. -/
theorem layoutY_in_bounds_witness :
    (0 : Int) ≤ 20 ∧ (0 : Int) ≤ 20 ∧ (20 : Int) + 20 ≤ 64 ∧
    (0 ≤ (layoutY 64 20 20).2 ∧ (layoutY 64 20 20).2 + 20 ≤ 64 ∧
     0 ≤ (layoutY 64 20 20).1 ∧
     (layoutY 64 20 20).1 + 20 ≤ (layoutY 64 20 20).2) :=
  ⟨by decide, by decide, by decide,
   layoutY_in_bounds 64 20 20 (by decide) (by decide) (by decide)⟩

/-- C10: in every fallback tier the computed `x1`, `x2` and `y1` are
non-negative, for all integer inputs whatsoever; and for non-negative
reported metrics on a non-empty raster the final `x1`, `x2` and `y1` also
stay strictly below the raster bounds — only `y2` can escape. -/
theorem layout_only_y2_escapes (width height w1 w2 h1 h2 : Int) :
    (0 ≤ xCoord width w1 ∧ 0 ≤ xCoord width w2 ∧
     0 ≤ (tier1 height h1 h2).1 ∧ 0 ≤ (tier2 height h1 h2).1 ∧
     0 ≤ (tier3 h1).1 ∧ 0 ≤ (tier4 height h1 h2).1 ∧
     0 ≤ (layoutY height h1 h2).1) ∧
    (0 ≤ w1 → 1 ≤ width → xCoord width w1 < width) ∧
    (0 ≤ w2 → 1 ≤ width → xCoord width w2 < width) ∧
    (0 ≤ h1 → 0 ≤ h2 → 1 ≤ height → (layoutY height h1 h2).1 < height) := by
  obtain ⟨hq, hr0, hr3⟩ := fdiv3_decomp (height - (h1 + h2))
  obtain ⟨ha, ha0, ha2⟩ := fdiv2_decomp (width - w1)
  obtain ⟨hb, hb0, hb2⟩ := fdiv2_decomp (width - w2)
  refine ⟨⟨?_, ?_, ?_, ?_, ?_, ?_, ?_⟩, ?_, ?_, ?_⟩ <;>
    simp only [xCoord, layoutY, tier1, tier2, tier3, tier4, spacing1, spacing2] <;>
    first
      | omega
      | (split_ifs <;> simp <;> omega)

/-- Witness for `layout_only_y2_escapes` with oversized metrics
(`128 × 64` raster, widths 200, heights 100). -/
theorem layout_only_y2_escapes_witness :
    0 ≤ (layoutY 64 100 100).1 ∧ xCoord 128 200 < 128 ∧
    (layoutY 64 100 100).1 < 64 :=
  ⟨(layout_only_y2_escapes 128 64 200 200 100 100).1.2.2.2.2.2.2,
   (layout_only_y2_escapes 128 64 200 200 100 100).2.1 (by decide) (by decide),
   (layout_only_y2_escapes 128 64 200 200 100 100).2.2.2
     (by decide) (by decide) (by decide)⟩
